import Mathlib

/-!
# Verification of the Office-Management CRUD backend

Shallow embedding of the FastAPI + MongoDB resource routers under `src/app/`
(`employee`, `chat`, `document`, `project`, `expense`) and proofs of the
specification claims about them.

Modelling conventions, matched line by line against the Python source:

* A MongoDB collection is a list of `(String × α)` pairs: the canonical
  (lowercase 24-hex) string form of the document's ObjectId together with the
  base fields; the store also carries a counter from which fresh ObjectIds are
  generated (`genOid`), mirroring that the driver assigns a fresh unique id on
  `insert_one`.
* `ObjectId(s)` in `bson` succeeds exactly on 24-character hex strings and is
  case-insensitive; `parseOid` returns the lowercase canonical form or `none`.
* Python floats (employee salary, expense amount) are modelled as `ℚ`; the code
  only ever compares them for equality and truthiness, so no rounding matters.
* `{"$regex": pat, "$options": "i"}` is modelled as case-insensitive literal
  substring match (`containsCI`); every pattern considered here is plain text
  without regex metacharacters.
* Exceptions raised inside a route body are values of `PyExc`.  A route whose
  Python body is wrapped in `try/except Exception as e: raise
  HTTPException(500, str(e))` is modelled by `catchAll`, which converts ANY
  raised exception - including `HTTPException(404)` / `HTTPException(400)`
  raised inside the `try`, `bson.errors.InvalidId`, and pydantic
  `ValidationError` - into an HTTP 500 response, exactly as the Python does
  (FastAPI `HTTPException` is an `Exception` subclass, so the blanket
  `except` catches it).  A route with no such wrapper (`create_document`) is
  modelled by `catchGlobal`: an `HTTPException` keeps its status code and any
  other exception becomes the application-wide 500 handler response.
* pydantic model construction `Model(**kwargs)` is modelled by an explicit
  keyword dictionary (`List (String × Val)`) and a `mk...` function that looks
  up each declared field by name; unknown keys (such as `"_id"`) are ignored
  (pydantic default `extra = ignore`) and a missing required field raises
  `ValidationError`.  This is where the employee router differs from the
  others: it calls `Employee(**employee_dict)` with the id stored under the
  key `"_id"`, not `"id"`.
* Exception message strings (`str(e)`) are reproduced in shape, not verbatim
  for library-generated messages; no claim depends on the message text, only
  on the HTTP status code.
-/

deriving instance DecidableEq for Except

namespace OfficeAPI

/-- Values that appear in a Python keyword dictionary passed to a pydantic
model or stored in a MongoDB document. -/
inductive Val : Type where
  | s (v : String)
  | q (v : ℚ)
  | ls (v : List String)
  deriving Repr, DecidableEq

/-- Lookup of a key in a Python keyword dictionary (first binding wins; every
dictionary built by the routers has distinct keys). -/
def dget (d : List (String × Val)) (k : String) : Option Val :=
  (d.find? (fun kv => kv.1 == k)).map (fun kv => kv.2)

/-- Hex digit as accepted by `bson.ObjectId` (both cases). -/
def isHexDigitCh (c : Char) : Bool :=
  c.isDigit
    || (decide (97 ≤ c.toNat) && decide (c.toNat ≤ 102))
    || (decide (65 ≤ c.toNat) && decide (c.toNat ≤ 70))

/-- `ObjectId(s)` succeeds on a string exactly when it is 24 hex characters. -/
def isValidOidString (s : String) : Bool :=
  s.length == 24 && s.toList.all isHexDigitCh

/-- ASCII lowercase of one character (`str.lower()` on the hex and search
strings handled here). -/
def lowerCh (c : Char) : Char :=
  if 65 ≤ c.toNat && c.toNat ≤ 90 then Char.ofNat (c.toNat + 32) else c

/-- ASCII lowercase of a string. -/
def lowerStr (s : String) : String := String.mk (s.toList.map lowerCh)

/-- String-to-ObjectId translation: canonical lowercase form on success,
`none` when `bson.errors.InvalidId` would be raised. -/
def parseOid (s : String) : Option String :=
  if isValidOidString s then some (lowerStr s) else none

/-- The ObjectId generated for the n-th insert: n in lowercase hex, padded to
24 characters (a fresh, valid, non-empty id string). -/
def genOid (n : Nat) : String :=
  let ds := Nat.toDigits 16 n
  String.mk (List.replicate (24 - ds.length) '0' ++ ds)

/-- Does `needle` occur at the head of `hay`? -/
def leadsWith : List Char → List Char → Bool
  | [], _ => true
  | _ :: _, [] => false
  | a :: as, b :: bs => a == b && leadsWith as bs

/-- Does `needle` occur anywhere in `hay`?  (An empty needle always does,
like an empty regex.) -/
def charsContain : List Char → List Char → Bool
  | [], needle => needle.isEmpty
  | c :: rest, needle => leadsWith needle (c :: rest) || charsContain rest needle

/-- Case-insensitive substring test, the model of
`{"$regex": pat, "$options": "i"}` for a metacharacter-free pattern. -/
def containsCI (hay pat : String) : Bool :=
  charsContain (hay.toList.map lowerCh) (pat.toList.map lowerCh)

/-- Exceptions that route bodies can raise. -/
inductive PyExc : Type where
  /-- `fastapi.HTTPException(status_code, detail)`. -/
  | http (status : Nat) (detail : String)
  /-- `bson.errors.InvalidId` from `ObjectId(s)`. -/
  | invalidId (s : String)
  /-- pydantic `ValidationError` from `Model(**kwargs)` (required field
  missing); the argument names the model. -/
  | validation (model : String)
  deriving Repr, DecidableEq

/-- `str(e)` for an exception (Starlette renders `HTTPException` as
`"{status}: {detail}"`; library messages are abbreviated, see header). -/
def pyExcStr : PyExc → String
  | .http c d => toString c ++ ": " ++ d
  | .invalidId s => s ++ " is not a valid ObjectId"
  | .validation m => "1 validation error for " ++ m ++ ": id field required"

/-- An HTTP error response: status code and detail string. -/
structure HErr : Type where
  status : Nat
  detail : String
  deriving Repr, DecidableEq

/-- The per-route `try: ... except Exception as e: raise HTTPException(500,
str(e))` wrapper: every exception, of whatever kind, resurfaces as 500. -/
def catchAll {α : Type} : Except PyExc α → Except HErr α
  | .ok a => .ok a
  | .error e => .error ⟨500, pyExcStr e⟩

/-- Behaviour of a route with no local `try/except`: an `HTTPException`
reaches FastAPI's handler with its own status; anything else falls through to
the application-wide fallback handler in `main.py`, a generic 500. -/
def catchGlobal {α : Type} : Except PyExc α → Except HErr α
  | .ok a => .ok a
  | .error (.http c d) => .error ⟨c, d⟩
  | .error _ => .error ⟨500, "An unexpected error occurred. Please try again later."⟩

/-- A MongoDB collection: documents keyed by canonical ObjectId string, plus
the id-generation counter. -/
structure Store (α : Type) : Type where
  docs : List (String × α)
  counter : Nat
  deriving Repr, DecidableEq

/-- `collection.insert_one(doc)`: appends the document under a fresh id. -/
def insertOne {α : Type} (s : Store α) (v : α) : String × Store α :=
  (genOid s.counter, ⟨s.docs ++ [(genOid s.counter, v)], s.counter + 1⟩)

/-- `collection.update_one({"_id": oid}, {"$set": fields})` where `fields` is
the full base schema: replaces the value of the first document with the given
id and reports the matched count (0 or 1).  Since `_id` carries a unique
index, at most one document matches. -/
def updateFirst {α : Type} : List (String × α) → String → α → List (String × α) × Nat
  | [], _, _ => ([], 0)
  | d :: rest, oid, v =>
    if d.1 == oid then ((d.1, v) :: rest, 1)
    else
      let r := updateFirst rest oid v
      (d :: r.1, r.2)

/-- `collection.delete_one({"_id": oid})`: removes the first document with the
given id and reports the deleted count (0 or 1). -/
def deleteFirst {α : Type} : List (String × α) → String → List (String × α) × Nat
  | [], _ => ([], 0)
  | d :: rest, oid =>
    if d.1 == oid then (rest, 1)
    else
      let r := deleteFirst rest oid
      (d :: r.1, r.2)

/-- Truthiness of an optional string query parameter (`if name:`): `None` and
the empty string are falsy. -/
def truthyS (o : Option String) : Bool :=
  match o with
  | some s => !s.isEmpty
  | none => false

/-- Truthiness of an optional float query parameter (`if salary:`): `None`
and `0.0` are falsy. -/
def truthyQ (o : Option ℚ) : Bool :=
  match o with
  | some q => decide (q ≠ 0)
  | none => false

/-- The `if id: query["_id"] = ObjectId(id)` step shared by the search
routes: a truthy id filter is parsed (raising `InvalidId` on a malformed
string), a falsy one adds no criterion. -/
def parseIdFilter (id : Option String) : Except PyExc (Option String) :=
  if truthyS id then
    match parseOid (id.getD "") with
    | some oid => .ok (some oid)
    | none => .error (.invalidId (id.getD ""))
  else .ok none

end OfficeAPI

namespace OfficeAPI

/-! ## Employee resource (`src/app/employee/routers.py`) -/

/-- `EmployeeBase`: the request payload schema. -/
structure EmployeeBase : Type where
  name : String
  position : String
  salary : ℚ
  deriving Repr, DecidableEq

/-- `Employee`: the response model, `EmployeeBase` plus the required `id`. -/
structure Employee : Type where
  name : String
  position : String
  salary : ℚ
  id : String
  deriving Repr, DecidableEq

/-- `EmployeeResponse`: `{detail, data}` envelope. -/
structure EmployeeResponse : Type where
  detail : String
  data : Option Employee
  deriving Repr, DecidableEq

/-- `employee.dict()`. -/
def employeeDict (e : EmployeeBase) : List (String × Val) :=
  [("name", Val.s e.name), ("position", Val.s e.position), ("salary", Val.q e.salary)]

/-- `Employee(**kwargs)`: pydantic reads the four declared fields by name,
ignores unknown keys (such as `"_id"`), and raises `ValidationError` when a
required field - in particular `id` - is absent. -/
def mkEmployee (d : List (String × Val)) : Except PyExc Employee :=
  match dget d "name", dget d "position", dget d "salary", dget d "id" with
  | some (.s n), some (.s p), some (.q sal), some (.s i) => .ok ⟨n, p, sal, i⟩
  | _, _, _, _ => .error (.validation "Employee")

/-- `[Employee(**emp) for emp in employees]` after `emp["_id"] = str(emp["_id"])`:
left to right, stopping at the first `ValidationError`. -/
def renderEmployees : List (String × EmployeeBase) → Except PyExc (List Employee)
  | [] => .ok []
  | d :: rest =>
    match mkEmployee (employeeDict d.2 ++ [("_id", Val.s d.1)]) with
    | .error e => .error e
    | .ok emp =>
      match renderEmployees rest with
      | .error e => .error e
      | .ok tl => .ok (emp :: tl)

/-- Body of `create_employee` (inside its `try`): exact-match uniqueness
check on `name`, insert, then `Employee(**employee_dict)` where the dict
carries the new id under `"_id"`. -/
def create_employee_inner (s : Store EmployeeBase) (employee : EmployeeBase) :
    Except PyExc EmployeeResponse × Store EmployeeBase :=
  if s.docs.any (fun d => d.2.name == employee.name) then
    (.error (.http 400 "Employee with this name already exists"), s)
  else
    let r := insertOne s employee
    match mkEmployee (employeeDict employee ++ [("_id", Val.s r.1)]) with
    | .error e => (.error e, r.2)
    | .ok emp => (.ok ⟨"Employee created successfully.", some emp⟩, r.2)

/-- `POST /employees/`. -/
def create_employee (s : Store EmployeeBase) (employee : EmployeeBase) :
    Except HErr EmployeeResponse × Store EmployeeBase :=
  let r := create_employee_inner s employee
  (catchAll r.1, r.2)

/-- `GET /employees/`. -/
def get_employees (s : Store EmployeeBase) : Except HErr (List Employee) :=
  catchAll (renderEmployees s.docs)

/-- The MongoDB query built by `search_employees`, as a predicate on a stored
document: id and `position` and `salary` by exact equality, `name` by
case-insensitive pattern.  Each argument is the criterion actually placed in
the query dict (`none` when the parameter was falsy). -/
def empQuery (qid qname qpos : Option String) (qsal : Option ℚ)
    (d : String × EmployeeBase) : Bool :=
  (match qid with | some oid => d.1 == oid | none => true)
    && (match qname with | some n => containsCI d.2.name n | none => true)
    && (match qpos with | some p => d.2.position == p | none => true)
    && (match qsal with | some q => d.2.salary == q | none => true)

/-- Query construction and `find` of `search_employees`: the documents the
store hands back, before response serialization. -/
def search_employees_docs (s : Store EmployeeBase)
    (id name position : Option String) (salary : Option ℚ) :
    Except PyExc (List (String × EmployeeBase)) :=
  match parseIdFilter id with
  | .error e => .error e
  | .ok qid =>
    .ok (s.docs.filter (empQuery qid
      (if truthyS name then name else none)
      (if truthyS position then position else none)
      (if truthyQ salary then salary else none)))

/-- `GET /employees/search/`. -/
def search_employees (s : Store EmployeeBase)
    (id name position : Option String) (salary : Option ℚ) :
    Except HErr (List Employee) :=
  catchAll (match search_employees_docs s id name position salary with
    | .error e => .error e
    | .ok docs => renderEmployees docs)

/-- Body of `update_employee`: `ObjectId(employee_id)`, `update_one` with
`$set` of the full base schema, 404 on zero matches, then
`Employee(**employee_dict)` with the id under `"_id"`. -/
def update_employee_inner (s : Store EmployeeBase) (employee_id : String)
    (employee : EmployeeBase) : Except PyExc EmployeeResponse × Store EmployeeBase :=
  match parseOid employee_id with
  | none => (.error (.invalidId employee_id), s)
  | some oid =>
    let r := updateFirst s.docs oid employee
    if r.2 == 0 then (.error (.http 404 "Employee not found"), ⟨r.1, s.counter⟩)
    else
      match mkEmployee (employeeDict employee ++ [("_id", Val.s employee_id)]) with
      | .error e => (.error e, ⟨r.1, s.counter⟩)
      | .ok emp => (.ok ⟨"Employee updated successfully.", some emp⟩, ⟨r.1, s.counter⟩)

/-- `PUT /employees/{employee_id}`. -/
def update_employee (s : Store EmployeeBase) (employee_id : String)
    (employee : EmployeeBase) : Except HErr EmployeeResponse × Store EmployeeBase :=
  let r := update_employee_inner s employee_id employee
  (catchAll r.1, r.2)

/-- Body of `delete_employee`. -/
def delete_employee_inner (s : Store EmployeeBase) (employee_id : String) :
    Except PyExc String × Store EmployeeBase :=
  match parseOid employee_id with
  | none => (.error (.invalidId employee_id), s)
  | some oid =>
    let r := deleteFirst s.docs oid
    if r.2 == 0 then (.error (.http 404 "Employee not found"), ⟨r.1, s.counter⟩)
    else (.ok "Employee deleted successfully.", ⟨r.1, s.counter⟩)

/-- `DELETE /employees/{employee_id}` (returns `{"detail": ...}`). -/
def delete_employee (s : Store EmployeeBase) (employee_id : String) :
    Except HErr String × Store EmployeeBase :=
  let r := delete_employee_inner s employee_id
  (catchAll r.1, r.2)

end OfficeAPI

namespace OfficeAPI

/-! ## Chat resource (`src/app/chat/routers.py`) -/

/-- `ChatCreate`: the request payload schema. -/
structure ChatCreate : Type where
  message : String
  sender : String
  timestamp : String
  deriving Repr, DecidableEq

/-- `ChatResponse`: the response model, with the required `id`. -/
structure ChatResponse : Type where
  id : String
  message : String
  sender : String
  timestamp : String
  deriving Repr, DecidableEq

/-- `SuccessResponse`: `{detail, data}` envelope for chats. -/
structure ChatSuccess : Type where
  detail : String
  data : Option ChatResponse
  deriving Repr, DecidableEq

/-- `chat.dict()`. -/
def chatDict (c : ChatCreate) : List (String × Val) :=
  [("message", Val.s c.message), ("sender", Val.s c.sender), ("timestamp", Val.s c.timestamp)]

/-- `ChatResponse(**kwargs)`: unknown keys (such as `"_id"`) ignored, any
missing required field raises `ValidationError`. -/
def mkChatResponse (d : List (String × Val)) : Except PyExc ChatResponse :=
  match dget d "id", dget d "message", dget d "sender", dget d "timestamp" with
  | some (.s i), some (.s m), some (.s sd), some (.s t) => .ok ⟨i, m, sd, t⟩
  | _, _, _, _ => .error (.validation "ChatResponse")

/-- `[ChatResponse(id=str(chat["_id"]), **chat) for chat in chats]`: the id is
passed explicitly, so construction succeeds. -/
def renderChats : List (String × ChatCreate) → Except PyExc (List ChatResponse)
  | [] => .ok []
  | d :: rest =>
    match mkChatResponse (("id", Val.s d.1) :: chatDict d.2) with
    | .error e => .error e
    | .ok c =>
      match renderChats rest with
      | .error e => .error e
      | .ok tl => .ok (c :: tl)

/-- The `ChatResponse` the code serializes for a stored chat document. -/
def chatRespOf (d : String × ChatCreate) : ChatResponse :=
  ⟨d.1, d.2.message, d.2.sender, d.2.timestamp⟩

/-- Body of `create_chat` (no uniqueness rule): insert, then
`ChatResponse(id=chat_dict["_id"], **chat_dict)`. -/
def create_chat_inner (s : Store ChatCreate) (chat : ChatCreate) :
    Except PyExc ChatSuccess × Store ChatCreate :=
  let r := insertOne s chat
  match mkChatResponse (("id", Val.s r.1) :: chatDict chat ++ [("_id", Val.s r.1)]) with
  | .error e => (.error e, r.2)
  | .ok c => (.ok ⟨"Chat created successfully.", some c⟩, r.2)

/-- `POST /chats/`. -/
def create_chat (s : Store ChatCreate) (chat : ChatCreate) :
    Except HErr ChatSuccess × Store ChatCreate :=
  let r := create_chat_inner s chat
  (catchAll r.1, r.2)

/-- `GET /chats/`. -/
def get_chats (s : Store ChatCreate) : Except HErr (List ChatResponse) :=
  catchAll (renderChats s.docs)

/-- The MongoDB query built by `search_chats`: `message` by case-insensitive
pattern, `sender` and `timestamp` by exact equality. -/
def chatQuery (qmsg qsnd qts : Option String) (d : String × ChatCreate) : Bool :=
  (match qmsg with | some m => containsCI d.2.message m | none => true)
    && (match qsnd with | some x => d.2.sender == x | none => true)
    && (match qts with | some x => d.2.timestamp == x | none => true)

/-- Query construction and `find` of `search_chats`. -/
def search_chats_docs (s : Store ChatCreate)
    (message sender timestamp : Option String) : List (String × ChatCreate) :=
  s.docs.filter (chatQuery
    (if truthyS message then message else none)
    (if truthyS sender then sender else none)
    (if truthyS timestamp then timestamp else none))

/-- `GET /chats/search/` (no id filter exists on this route). -/
def search_chats (s : Store ChatCreate)
    (message sender timestamp : Option String) : Except HErr (List ChatResponse) :=
  catchAll (renderChats (search_chats_docs s message sender timestamp))

/-- Body of `update_chat`. -/
def update_chat_inner (s : Store ChatCreate) (chat_id : String) (chat : ChatCreate) :
    Except PyExc ChatSuccess × Store ChatCreate :=
  match parseOid chat_id with
  | none => (.error (.invalidId chat_id), s)
  | some oid =>
    let r := updateFirst s.docs oid chat
    if r.2 == 0 then (.error (.http 404 "Chat not found"), ⟨r.1, s.counter⟩)
    else
      match mkChatResponse (("id", Val.s chat_id) :: chatDict chat ++ [("_id", Val.s chat_id)]) with
      | .error e => (.error e, ⟨r.1, s.counter⟩)
      | .ok c => (.ok ⟨"Chat updated successfully.", some c⟩, ⟨r.1, s.counter⟩)

/-- `PUT /chats/{chat_id}`. -/
def update_chat (s : Store ChatCreate) (chat_id : String) (chat : ChatCreate) :
    Except HErr ChatSuccess × Store ChatCreate :=
  let r := update_chat_inner s chat_id chat
  (catchAll r.1, r.2)

/-- Body of `delete_chat` (204, no response body on success). -/
def delete_chat_inner (s : Store ChatCreate) (chat_id : String) :
    Except PyExc Unit × Store ChatCreate :=
  match parseOid chat_id with
  | none => (.error (.invalidId chat_id), s)
  | some oid =>
    let r := deleteFirst s.docs oid
    if r.2 == 0 then (.error (.http 404 "Chat not found"), ⟨r.1, s.counter⟩)
    else (.ok (), ⟨r.1, s.counter⟩)

/-- `DELETE /chats/{chat_id}`. -/
def delete_chat (s : Store ChatCreate) (chat_id : String) :
    Except HErr Unit × Store ChatCreate :=
  let r := delete_chat_inner s chat_id
  (catchAll r.1, r.2)

end OfficeAPI

namespace OfficeAPI

/-! ## Document resource (`src/app/document/routers.py`) -/

/-- `DocumentBase`: the request payload schema. -/
structure DocumentBase : Type where
  title : String
  description : String
  uploaded_by : String
  deriving Repr, DecidableEq

/-- `Document`: the response model, with the required `id`. -/
structure Document : Type where
  title : String
  description : String
  uploaded_by : String
  id : String
  deriving Repr, DecidableEq

/-- `DocumentResponse`: `{detail, data}` envelope. -/
structure DocumentResponse : Type where
  detail : String
  data : Option Document
  deriving Repr, DecidableEq

/-- `document.dict()`. -/
def documentDict (d : DocumentBase) : List (String × Val) :=
  [("title", Val.s d.title), ("description", Val.s d.description),
    ("uploaded_by", Val.s d.uploaded_by)]

/-- `Document(**kwargs)`. -/
def mkDocument (d : List (String × Val)) : Except PyExc Document :=
  match dget d "title", dget d "description", dget d "uploaded_by", dget d "id" with
  | some (.s t), some (.s ds), some (.s u), some (.s i) => .ok ⟨t, ds, u, i⟩
  | _, _, _, _ => .error (.validation "Document")

/-- The `Document` the code serializes for a stored document
(`Document(**{**doc, "id": str(doc["_id"])})`). -/
def docRespOf (d : String × DocumentBase) : Document :=
  ⟨d.2.title, d.2.description, d.2.uploaded_by, d.1⟩

/-- `[Document(**{**doc, "id": str(doc["_id"])}) for doc in documents]`. -/
def renderDocuments : List (String × DocumentBase) → Except PyExc (List Document)
  | [] => .ok []
  | d :: rest =>
    match mkDocument (documentDict d.2 ++ [("_id", Val.s d.1), ("id", Val.s d.1)]) with
    | .error e => .error e
    | .ok doc =>
      match renderDocuments rest with
      | .error e => .error e
      | .ok tl => .ok (doc :: tl)

/-- Body of `create_document`.  NOTE: unlike the other routers, this route
has no `try/except` around the duplicate-title check, so the
`HTTPException(400)` it raises reaches the client with status 400
(`catchGlobal` in the wrapper below). -/
def create_document_inner (s : Store DocumentBase) (document : DocumentBase) :
    Except PyExc DocumentResponse × Store DocumentBase :=
  if s.docs.any (fun d => d.2.title == document.title) then
    (.error (.http 400 "Document with this title already exists"), s)
  else
    let r := insertOne s document
    match mkDocument (documentDict document ++ [("_id", Val.s r.1), ("id", Val.s r.1)]) with
    | .error e => (.error e, r.2)
    | .ok doc => (.ok ⟨"Document created successfully.", some doc⟩, r.2)

/-- `POST /documents/`. -/
def create_document (s : Store DocumentBase) (document : DocumentBase) :
    Except HErr DocumentResponse × Store DocumentBase :=
  let r := create_document_inner s document
  (catchGlobal r.1, r.2)

/-- The MongoDB query built by `search_documents`: id exact, `title` and
`uploaded_by` by case-insensitive pattern. -/
def docQuery (qid qtitle qby : Option String) (d : String × DocumentBase) : Bool :=
  (match qid with | some oid => d.1 == oid | none => true)
    && (match qtitle with | some t => containsCI d.2.title t | none => true)
    && (match qby with | some u => containsCI d.2.uploaded_by u | none => true)

/-- Query construction and `find` of `search_documents`. -/
def search_documents_docs (s : Store DocumentBase)
    (id title uploaded_by : Option String) :
    Except PyExc (List (String × DocumentBase)) :=
  match parseIdFilter id with
  | .error e => .error e
  | .ok qid =>
    .ok (s.docs.filter (docQuery qid
      (if truthyS title then title else none)
      (if truthyS uploaded_by then uploaded_by else none)))

/-- `GET /documents/search/`. -/
def search_documents (s : Store DocumentBase)
    (id title uploaded_by : Option String) : Except HErr (List Document) :=
  catchAll (match search_documents_docs s id title uploaded_by with
    | .error e => .error e
    | .ok docs => renderDocuments docs)

/-- Body of `update_document`. -/
def update_document_inner (s : Store DocumentBase) (document_id : String)
    (document : DocumentBase) : Except PyExc DocumentResponse × Store DocumentBase :=
  match parseOid document_id with
  | none => (.error (.invalidId document_id), s)
  | some oid =>
    let r := updateFirst s.docs oid document
    if r.2 == 0 then (.error (.http 404 "Document not found"), ⟨r.1, s.counter⟩)
    else
      match mkDocument (documentDict document
          ++ [("_id", Val.s document_id), ("id", Val.s document_id)]) with
      | .error e => (.error e, ⟨r.1, s.counter⟩)
      | .ok doc => (.ok ⟨"Document updated successfully.", some doc⟩, ⟨r.1, s.counter⟩)

/-- `PUT /documents/{document_id}`. -/
def update_document (s : Store DocumentBase) (document_id : String)
    (document : DocumentBase) : Except HErr DocumentResponse × Store DocumentBase :=
  let r := update_document_inner s document_id document
  (catchAll r.1, r.2)

end OfficeAPI

namespace OfficeAPI

/-! ## Project resource (`src/app/project/routers.py`), search route -/

/-- `ProjectBase`: the request payload schema. -/
structure ProjectBase : Type where
  name : String
  description : String
  start_date : String
  end_date : Option String
  status : String
  members : List String
  deriving Repr, DecidableEq

/-- `Project`: the response model, with the required `id`. -/
structure Project : Type where
  name : String
  description : String
  start_date : String
  end_date : Option String
  status : String
  members : List String
  id : String
  deriving Repr, DecidableEq

/-- The `Project` serialized for a stored document;
`Project(**{**project, "id": str(project["_id"])})` always succeeds because
`id` is supplied explicitly. -/
def projRespOf (d : String × ProjectBase) : Project :=
  ⟨d.2.name, d.2.description, d.2.start_date, d.2.end_date, d.2.status, d.2.members, d.1⟩

/-- The MongoDB query built by `search_projects`: id exact, `name` and
`status` both by case-insensitive pattern (`$regex` with option `i`). -/
def projQuery (qid qname qstatus : Option String) (d : String × ProjectBase) : Bool :=
  (match qid with | some oid => d.1 == oid | none => true)
    && (match qname with | some n => containsCI d.2.name n | none => true)
    && (match qstatus with | some st => containsCI d.2.status st | none => true)

/-- Query construction and `find` of `search_projects`. -/
def search_projects_docs (s : Store ProjectBase)
    (id name status : Option String) : Except PyExc (List (String × ProjectBase)) :=
  match parseIdFilter id with
  | .error e => .error e
  | .ok qid =>
    .ok (s.docs.filter (projQuery qid
      (if truthyS name then name else none)
      (if truthyS status then status else none)))

/-- `GET /projects/search/`. -/
def search_projects (s : Store ProjectBase)
    (id name status : Option String) : Except HErr (List Project) :=
  catchAll (match search_projects_docs s id name status with
    | .error e => .error e
    | .ok docs => .ok (docs.map projRespOf))

end OfficeAPI

namespace OfficeAPI

/-! ## Expense resource (`src/app/expense/routers.py`), search route -/

/-- `ExpenseBase`: the request payload schema. -/
structure ExpenseBase : Type where
  title : String
  amount : ℚ
  category : String
  incurred_by : String
  date : String
  deriving Repr, DecidableEq

/-- `Expense`: the response model, with the required `id`. -/
structure Expense : Type where
  title : String
  amount : ℚ
  category : String
  incurred_by : String
  date : String
  id : String
  deriving Repr, DecidableEq

/-- The `Expense` serialized for a stored document
(`Expense(**{**exp, "id": str(exp["_id"])})`, id supplied explicitly). -/
def expRespOf (d : String × ExpenseBase) : Expense :=
  ⟨d.2.title, d.2.amount, d.2.category, d.2.incurred_by, d.2.date, d.1⟩

/-- The MongoDB query built by `search_expenses`: id exact; `title`,
`category` and `incurred_by` all by case-insensitive pattern. -/
def expQuery (qid qtitle qcat qby : Option String) (d : String × ExpenseBase) : Bool :=
  (match qid with | some oid => d.1 == oid | none => true)
    && (match qtitle with | some t => containsCI d.2.title t | none => true)
    && (match qcat with | some c => containsCI d.2.category c | none => true)
    && (match qby with | some u => containsCI d.2.incurred_by u | none => true)

/-- Query construction and `find` of `search_expenses`. -/
def search_expenses_docs (s : Store ExpenseBase)
    (id title category incurred_by : Option String) :
    Except PyExc (List (String × ExpenseBase)) :=
  match parseIdFilter id with
  | .error e => .error e
  | .ok qid =>
    .ok (s.docs.filter (expQuery qid
      (if truthyS title then title else none)
      (if truthyS category then category else none)
      (if truthyS incurred_by then incurred_by else none)))

/-- `GET /expenses/search/`. -/
def search_expenses (s : Store ExpenseBase)
    (id title category incurred_by : Option String) : Except HErr (List Expense) :=
  catchAll (match search_expenses_docs s id title category incurred_by with
    | .error e => .error e
    | .ok docs => .ok (docs.map expRespOf))

end OfficeAPI

namespace OfficeAPI

/-! ## Helper lemmas -/

/-- An absent string parameter is falsy. -/
theorem truthyS_none : truthyS none = false := rfl

/-- An absent numeric parameter is falsy. -/
theorem truthyQ_none : truthyQ none = false := rfl

/-- A nonempty string is truthy. -/
theorem truthyS_of_ne (s : String) (h : s ≠ "") : truthyS (some s) = true := by
  have hh : s.isEmpty = false := by
    cases hs : s.isEmpty
    · rfl
    · exact absurd ((String.isEmpty_iff s).mp hs) h
  simp [truthyS, hh]

/-- Mapping the update substitution over documents none of which carry the
updated id changes nothing. -/
theorem map_if_keys_ne {α : Type} (l : List (String × α)) (oid : String) (v : α)
    (h : ∀ e ∈ l, e.1 ≠ oid) :
    l.map (fun e => if e.1 == oid then (e.1, v) else e) = l := by
  induction l with
  | nil => rfl
  | cons d rest ih =>
    have hd : (d.1 == oid) = false := beq_eq_false_iff_ne.mpr (h d (List.mem_cons_self _ _))
    simp only [List.map_cons, hd, Bool.false_eq_true, if_false]
    rw [ih (fun e he => h e (List.mem_cons_of_mem _ he))]

/-- When the target id occurs in a collection with pairwise-distinct ids
(MongoDB's unique `_id` index), `update_one` replaces exactly that document
and reports one match; every other document is left untouched. -/
theorem updateFirst_eq_of_nodup {α : Type} (l : List (String × α)) (oid : String) (v : α)
    (hmem : oid ∈ l.map Prod.fst) (hnd : (l.map Prod.fst).Nodup) :
    updateFirst l oid v = (l.map (fun e => if e.1 == oid then (e.1, v) else e), 1) := by
  induction l with
  | nil => simp at hmem
  | cons d rest ih =>
    rw [List.map_cons] at hnd hmem
    have hdnot : d.1 ∉ rest.map Prod.fst := (List.nodup_cons.mp hnd).1
    have hnd2 : (rest.map Prod.fst).Nodup := (List.nodup_cons.mp hnd).2
    rw [List.map_cons]
    by_cases hd : d.1 = oid
    · have hb : (d.1 == oid) = true := beq_iff_eq.mpr hd
      have hrest : ∀ e ∈ rest, e.1 ≠ oid := by
        intro e he heq
        exact hdnot (by
          rw [hd, ← heq]
          exact List.mem_map_of_mem _ he)
      rw [map_if_keys_ne rest oid v hrest]
      simp [updateFirst, hb]
    · have hb : (d.1 == oid) = false := beq_eq_false_iff_ne.mpr hd
      have hmem2 : oid ∈ rest.map Prod.fst := by
        rcases List.mem_cons.mp hmem with h1 | h1
        · exact absurd h1.symm hd
        · exact h1
      simp [updateFirst, hb, ih hmem2 hnd2]

/-- `ChatResponse(id=..., **chat_dict)` succeeds and yields the serialized
record: the id is supplied explicitly. -/
theorem mkChatResponse_ok (d : String × ChatCreate) :
    mkChatResponse (("id", Val.s d.1) :: chatDict d.2) = .ok (chatRespOf d) := rfl

/-- Serializing any list of stored chats succeeds. -/
theorem renderChats_ok (l : List (String × ChatCreate)) :
    renderChats l = .ok (l.map chatRespOf) := by
  induction l with
  | nil => rfl
  | cons d rest ih => simp [renderChats, mkChatResponse_ok d, ih]

/-- `Document(**{**doc, "id": ...})` succeeds and yields the serialized
record. -/
theorem mkDocument_ok (d : String × DocumentBase) :
    mkDocument (documentDict d.2 ++ [("_id", Val.s d.1), ("id", Val.s d.1)])
      = .ok (docRespOf d) := rfl

/-- Serializing any list of stored documents succeeds. -/
theorem renderDocuments_ok (l : List (String × DocumentBase)) :
    renderDocuments l = .ok (l.map docRespOf) := by
  induction l with
  | nil => rfl
  | cons d rest ih => simp [renderDocuments, mkDocument_ok d, ih]

/-- `Employee(**employee_dict)` always raises `ValidationError`: the
dictionary carries the identifier under the key `"_id"`, and the required
field `id` is missing. -/
theorem mkEmployee_no_id (e : EmployeeBase) (i : String) :
    mkEmployee (employeeDict e ++ [("_id", Val.s i)]) = .error (.validation "Employee") := rfl

/-- Serializing a nonempty employee result set always fails. -/
theorem renderEmployees_err (d : String × EmployeeBase) (rest : List (String × EmployeeBase)) :
    renderEmployees (d :: rest) = .error (.validation "Employee") := by
  simp [renderEmployees, mkEmployee_no_id]

end OfficeAPI

namespace OfficeAPI

/-! ## Claim theorems -/

/-- C1 (code_bug evidence): update of a well-formed but absent employee id
and delete of a well-formed but absent chat id do leave the store unchanged,
but the `HTTPException(404)` each route raises inside its own `try` block is
caught by that route's `except Exception` and re-raised as HTTP 500, so the
client sees 500, not the 404 the claim states. -/
theorem update_delete_absent_id_surfaces_500 :
    update_employee ⟨[("000000000000000000000000", ⟨"Asha", "Engineer", 95000⟩)], 1⟩
        "aaaaaaaaaaaaaaaaaaaaaaaa" ⟨"Noor", "Manager", 120000⟩
      = (.error ⟨500, "404: Employee not found"⟩,
          ⟨[("000000000000000000000000", ⟨"Asha", "Engineer", 95000⟩)], 1⟩)
    ∧ delete_chat ⟨[("000000000000000000000000", ⟨"hi", "Alice", "2024"⟩)], 1⟩
        "aaaaaaaaaaaaaaaaaaaaaaaa"
      = (.error ⟨500, "404: Chat not found"⟩,
          ⟨[("000000000000000000000000", ⟨"hi", "Alice", "2024"⟩)], 1⟩) := by
  exact ⟨by decide, by decide⟩

/-- C2 (code_bug evidence): a duplicate-key create never inserts (the store
is returned exactly as before the call), but only the routes whose
uniqueness check sits outside a `try` block surface HTTP 400.
`create_document` does and returns 400; `create_employee` raises its
`HTTPException(400)` inside `try`, so the blanket `except Exception`
re-raises it as HTTP 500. -/
theorem duplicate_key_create_status :
    create_employee ⟨[("000000000000000000000000", ⟨"Asha", "Engineer", 95000⟩)], 1⟩
        ⟨"Asha", "Clerk", 50000⟩
      = (.error ⟨500, "400: Employee with this name already exists"⟩,
          ⟨[("000000000000000000000000", ⟨"Asha", "Engineer", 95000⟩)], 1⟩)
    ∧ create_document ⟨[("000000000000000000000000", ⟨"Report", "d", "u"⟩)], 1⟩
        ⟨"Report", "other", "v"⟩
      = (.error ⟨400, "Document with this title already exists"⟩,
          ⟨[("000000000000000000000000", ⟨"Report", "d", "u"⟩)], 1⟩) := by
  exact ⟨by decide, by decide⟩

/-- C3 (code_bug evidence): a valid employee create inserts the document and
then fails with HTTP 500 instead of returning the composed Record, because
`Employee(**employee_dict)` is called with the identifier under the key
`"_id"` while the model requires `id` (pydantic `ValidationError`); listing
employees fails the same way.  By contrast `create_chat`, which passes the
id explicitly, returns the composed Record with a non-empty identifier. -/
theorem create_employee_returns_no_record :
    create_employee ⟨[], 0⟩ ⟨"Asha", "Engineer", 95000⟩
      = (.error ⟨500, "1 validation error for Employee: id field required"⟩,
          ⟨[("000000000000000000000000", ⟨"Asha", "Engineer", 95000⟩)], 1⟩)
    ∧ get_employees ⟨[("000000000000000000000000", ⟨"Asha", "Engineer", 95000⟩)], 1⟩
      = .error ⟨500, "1 validation error for Employee: id field required"⟩
    ∧ create_chat ⟨[], 0⟩ ⟨"hi", "Alice", "2024"⟩
      = (.ok ⟨"Chat created successfully.",
            some ⟨"000000000000000000000000", "hi", "Alice", "2024"⟩⟩,
          ⟨[("000000000000000000000000", ⟨"hi", "Alice", "2024"⟩)], 1⟩)
    ∧ ("000000000000000000000000" : String) ≠ "" := by
  exact ⟨by decide, by decide, by decide, by decide⟩

/-- C10: the pre-insert uniqueness check compares titles by case-sensitive
exact equality while search matches case-insensitively: starting from an
empty collection, documents titled `"Report"` and `"report"` are both
created without a duplicate-key failure, and a search for `title=report`
then returns both. -/
theorem uniqueness_check_case_sensitive_vs_search :
    create_document ⟨[], 0⟩ ⟨"Report", "d", "u"⟩
      = (.ok ⟨"Document created successfully.",
            some ⟨"Report", "d", "u", "000000000000000000000000"⟩⟩,
          ⟨[("000000000000000000000000", ⟨"Report", "d", "u"⟩)], 1⟩)
    ∧ create_document ⟨[("000000000000000000000000", ⟨"Report", "d", "u"⟩)], 1⟩
        ⟨"report", "d2", "u2"⟩
      = (.ok ⟨"Document created successfully.",
            some ⟨"report", "d2", "u2", "000000000000000000000001"⟩⟩,
          ⟨[("000000000000000000000000", ⟨"Report", "d", "u"⟩),
            ("000000000000000000000001", ⟨"report", "d2", "u2"⟩)], 2⟩)
    ∧ search_documents ⟨[("000000000000000000000000", ⟨"Report", "d", "u"⟩),
          ("000000000000000000000001", ⟨"report", "d2", "u2"⟩)], 2⟩
        none (some "report") none
      = .ok [⟨"Report", "d", "u", "000000000000000000000000"⟩,
          ⟨"report", "d2", "u2", "000000000000000000000001"⟩] := by
  exact ⟨by decide, by decide, by decide⟩

/-- C4 counterexample: deleting an employee with the malformed identifier
`"xyz"` fails with HTTP 500, not the HTTP 400 the claim states: the
`bson.errors.InvalidId` raised by `ObjectId("xyz")` inside the route's `try`
block is caught by `except Exception` and re-raised as a 500. -/
theorem invalid_id_counterexample :
    delete_employee ⟨[], 0⟩ "xyz"
      = (.error ⟨500, "xyz is not a valid ObjectId"⟩, ⟨[], 0⟩)
    ∧ (500 : Nat) ≠ 400 := by
  exact ⟨by decide, by decide⟩

/-- C4 amended: supplying an identifier string that cannot be parsed into the
native ObjectId form makes employee search, update and delete fail cleanly -
the store untouched and the `InvalidId` error caught and surfaced as an HTTP
500 error response (not 400) - and never crashes the process (each operation
is total and always produces a response). -/
theorem invalid_id_fails_cleanly (s : Store EmployeeBase) (i : String) (e : EmployeeBase)
    (hvalid : isValidOidString i = false) (hne : i ≠ "") :
    search_employees s (some i) none none none = .error ⟨500, pyExcStr (.invalidId i)⟩
    ∧ update_employee s i e = (.error ⟨500, pyExcStr (.invalidId i)⟩, s)
    ∧ delete_employee s i = (.error ⟨500, pyExcStr (.invalidId i)⟩, s) := by
  have ht : truthyS (some i) = true := truthyS_of_ne i hne
  refine ⟨?_, ?_, ?_⟩
  · simp [search_employees, search_employees_docs, parseIdFilter, ht, parseOid, hvalid, catchAll]
  · simp [update_employee, update_employee_inner, parseOid, hvalid, catchAll]
  · simp [delete_employee, delete_employee_inner, parseOid, hvalid, catchAll]

/-- C4 witness: the amended statement at the concrete malformed id `"xyz"`. -/
theorem invalid_id_fails_cleanly_witness :
    search_employees ⟨[], 0⟩ (some "xyz") none none none
        = .error ⟨500, pyExcStr (.invalidId "xyz")⟩
    ∧ update_employee ⟨[], 0⟩ "xyz" ⟨"Asha", "Engineer", 95000⟩
        = (.error ⟨500, pyExcStr (.invalidId "xyz")⟩, ⟨[], 0⟩)
    ∧ delete_employee ⟨[], 0⟩ "xyz"
        = (.error ⟨500, pyExcStr (.invalidId "xyz")⟩, ⟨[], 0⟩) :=
  invalid_id_fails_cleanly ⟨[], 0⟩ "xyz" ⟨"Asha", "Engineer", 95000⟩ (by decide) (by decide)

/-- C5 counterexample: the chat `sender` filter is an exact, case-sensitive
match, not the case-insensitive substring match the claim states: a stored
chat whose sender is `"Alice"` is not returned when searching
`sender=alice`, even though `"Alice"` contains `"alice"` up to letter
case. -/
theorem chat_sender_filter_exact_counterexample :
    search_chats ⟨[("000000000000000000000000", ⟨"hi", "Alice", "2024"⟩)], 1⟩
        none (some "alice") none = .ok []
    ∧ containsCI "Alice" "alice" = true := by
  exact ⟨by decide, by decide⟩

/-- C5 amended: only some declared string filters use case-insensitive
substring matching (employee `name`, chat `message`, document `title` and
`uploaded_by`, meeting `title` and `organizer`, project `name` and `status`,
expense `title`, `category` and `incurred_by`); employee `position`, chat
`sender`, chat `timestamp` and meeting `date` filters match by exact,
case-sensitive equality.  Shown here on the cited routes: the chat search
result keeps exactly the chats whose `message` contains the filter
case-insensitively and whose `sender` and `timestamp` equal the filters
exactly, and the employee query matches `name` case-insensitively but
`position` exactly. -/
theorem search_string_field_semantics (cs : Store ChatCreate) (es : Store EmployeeBase)
    (m snd ts p : String) (hm : m ≠ "") (hs : snd ≠ "") (ht : ts ≠ "") (hp : p ≠ "") :
    search_chats cs (some m) (some snd) (some ts)
      = .ok ((cs.docs.filter (fun d =>
          containsCI d.2.message m && d.2.sender == snd && d.2.timestamp == ts)).map chatRespOf)
    ∧ search_employees_docs es none (some p) none none
      = .ok (es.docs.filter (fun d => containsCI d.2.name p))
    ∧ search_employees_docs es none none (some p) none
      = .ok (es.docs.filter (fun d => d.2.position == p)) := by
  have htm := truthyS_of_ne m hm
  have hts := truthyS_of_ne snd hs
  have htt := truthyS_of_ne ts ht
  have htp := truthyS_of_ne p hp
  refine ⟨?_, ?_, ?_⟩
  · have h1 : search_chats_docs cs (some m) (some snd) (some ts)
        = cs.docs.filter (chatQuery (some m) (some snd) (some ts)) := by
      simp [search_chats_docs, htm, hts, htt]
    rw [search_chats, h1, renderChats_ok]
    rfl
  · have h1 : search_employees_docs es none (some p) none none
        = .ok (es.docs.filter (empQuery none (some p) none none)) := by
      simp [search_employees_docs, parseIdFilter, truthyS_none, truthyQ_none, htp]
    rw [h1]
    congr 1
    exact List.filter_congr (fun d _ => by simp [empQuery])
  · have h1 : search_employees_docs es none none (some p) none
        = .ok (es.docs.filter (empQuery none none (some p) none)) := by
      simp [search_employees_docs, parseIdFilter, truthyS_none, truthyQ_none, htp]
    rw [h1]
    congr 1
    exact List.filter_congr (fun d _ => by simp [empQuery])

/-- C5 witness: the amended statement at a concrete store and filters. -/
theorem search_string_field_semantics_witness :
    search_chats ⟨[("000000000000000000000000", ⟨"Quarterly Report", "Alice", "2024"⟩)], 1⟩
        (some "quarterly") (some "Alice") (some "2024")
      = .ok (((⟨[("000000000000000000000000", ⟨"Quarterly Report", "Alice", "2024"⟩)], 1⟩ :
            Store ChatCreate).docs.filter (fun d =>
          containsCI d.2.message "quarterly" && d.2.sender == "Alice"
            && d.2.timestamp == "2024")).map chatRespOf)
    ∧ search_employees_docs ⟨[("000000000000000000000000", ⟨"Asha", "Engineer", 95000⟩)], 1⟩
        none (some "asha") none none
      = .ok ((⟨[("000000000000000000000000", ⟨"Asha", "Engineer", 95000⟩)], 1⟩ :
          Store EmployeeBase).docs.filter (fun d => containsCI d.2.name "asha"))
    ∧ search_employees_docs ⟨[("000000000000000000000000", ⟨"Asha", "Engineer", 95000⟩)], 1⟩
        none none (some "asha") none
      = .ok ((⟨[("000000000000000000000000", ⟨"Asha", "Engineer", 95000⟩)], 1⟩ :
          Store EmployeeBase).docs.filter (fun d => d.2.position == "asha")) :=
  search_string_field_semantics
    ⟨[("000000000000000000000000", ⟨"Quarterly Report", "Alice", "2024"⟩)], 1⟩
    ⟨[("000000000000000000000000", ⟨"Asha", "Engineer", 95000⟩)], 1⟩
    "quarterly" "Alice" "2024" "asha" (by decide) (by decide) (by decide) (by decide)

/-- C6 counterexample: the project `status` filter is a case-insensitive
substring match, not exact equality: the filter value `"act"` selects a
stored project whose status is `"Active"` although the two strings are not
equal, so the claimed if-and-only-if exact-equality semantics fails. -/
theorem project_status_filter_counterexample :
    search_projects
        ⟨[("000000000000000000000000", ⟨"Apollo", "d", "2024-01-01", none, "Active", []⟩)], 1⟩
        none none (some "act")
      = .ok [⟨"Apollo", "d", "2024-01-01", none, "Active", [], "000000000000000000000000"⟩]
    ∧ ("Active" : String) ≠ "act" := by
  exact ⟨by decide, by decide⟩

/-- C6 amended: numeric filters (employee `salary`) and the identifier
filter select by exact equality, but project `status` and expense `category`
filters use the same case-insensitive substring matching as the other string
fields. -/
theorem exact_vs_pattern_filter_semantics (es : Store EmployeeBase) (q : ℚ)
    (ps : Store ProjectBase) (xs : Store ExpenseBase) (i st cat : String)
    (hq : q ≠ 0) (hiv : isValidOidString i = true) (hine : i ≠ "")
    (hst : st ≠ "") (hcat : cat ≠ "") :
    search_employees_docs es none none none (some q)
      = .ok (es.docs.filter (fun d => d.2.salary == q))
    ∧ search_projects ps (some i) none none
      = .ok ((ps.docs.filter (fun d => d.1 == lowerStr i)).map projRespOf)
    ∧ search_projects ps none none (some st)
      = .ok ((ps.docs.filter (fun d => containsCI d.2.status st)).map projRespOf)
    ∧ search_expenses xs none none (some cat) none
      = .ok ((xs.docs.filter (fun d => containsCI d.2.category cat)).map expRespOf) := by
  have htq : truthyQ (some q) = true := by simp [truthyQ, hq]
  have hti := truthyS_of_ne i hine
  have htst := truthyS_of_ne st hst
  have htc := truthyS_of_ne cat hcat
  refine ⟨?_, ?_, ?_, ?_⟩
  · have h1 : search_employees_docs es none none none (some q)
        = .ok (es.docs.filter (empQuery none none none (some q))) := by
      simp [search_employees_docs, parseIdFilter, truthyS_none, truthyQ_none, htq]
    rw [h1]
    congr 1
  · have h1 : search_projects_docs ps (some i) none none
        = .ok (ps.docs.filter (projQuery (some (lowerStr i)) none none)) := by
      simp [search_projects_docs, parseIdFilter, hti, parseOid, hiv]
    rw [search_projects, h1]
    have h2 : ps.docs.filter (projQuery (some (lowerStr i)) none none)
        = ps.docs.filter (fun d => d.1 == lowerStr i) :=
      List.filter_congr (fun d _ => by simp [projQuery])
    rw [h2]
    rfl
  · have h1 : search_projects_docs ps none none (some st)
        = .ok (ps.docs.filter (projQuery none none (some st))) := by
      simp [search_projects_docs, parseIdFilter, truthyS_none, htst]
    rw [search_projects, h1]
    have h2 : ps.docs.filter (projQuery none none (some st))
        = ps.docs.filter (fun d => containsCI d.2.status st) :=
      List.filter_congr (fun d _ => by simp [projQuery])
    rw [h2]
    rfl
  · have h1 : search_expenses_docs xs none none (some cat) none
        = .ok (xs.docs.filter (expQuery none none (some cat) none)) := by
      simp [search_expenses_docs, parseIdFilter, truthyS_none, htc]
    rw [search_expenses, h1]
    have h2 : xs.docs.filter (expQuery none none (some cat) none)
        = xs.docs.filter (fun d => containsCI d.2.category cat) :=
      List.filter_congr (fun d _ => by simp [expQuery])
    rw [h2]
    rfl

/-- C6 witness: the amended statement at concrete stores and filters. -/
theorem exact_vs_pattern_filter_semantics_witness :
    search_employees_docs ⟨[("000000000000000000000000", ⟨"Asha", "Engineer", 95000⟩)], 1⟩
        none none none (some 95000)
      = .ok ((⟨[("000000000000000000000000", ⟨"Asha", "Engineer", 95000⟩)], 1⟩ :
          Store EmployeeBase).docs.filter (fun d => d.2.salary == 95000))
    ∧ search_projects
        ⟨[("000000000000000000000000", ⟨"Apollo", "d", "2024-01-01", none, "Active", []⟩)], 1⟩
        (some "AAAAAAAAAAAAAAAAAAAAAAAA") none none
      = .ok (((⟨[("000000000000000000000000", ⟨"Apollo", "d", "2024-01-01", none, "Active", []⟩)],
            1⟩ : Store ProjectBase).docs.filter
          (fun d => d.1 == lowerStr "AAAAAAAAAAAAAAAAAAAAAAAA")).map projRespOf)
    ∧ search_projects
        ⟨[("000000000000000000000000", ⟨"Apollo", "d", "2024-01-01", none, "Active", []⟩)], 1⟩
        none none (some "tiv")
      = .ok (((⟨[("000000000000000000000000", ⟨"Apollo", "d", "2024-01-01", none, "Active", []⟩)],
            1⟩ : Store ProjectBase).docs.filter
          (fun d => containsCI d.2.status "tiv")).map projRespOf)
    ∧ search_expenses
        ⟨[("000000000000000000000000", ⟨"Lunch", 20, "Food", "Asha", "2024-01-01"⟩)], 1⟩
        none none (some "foo") none
      = .ok (((⟨[("000000000000000000000000", ⟨"Lunch", 20, "Food", "Asha", "2024-01-01"⟩)], 1⟩ :
            Store ExpenseBase).docs.filter
          (fun d => containsCI d.2.category "foo")).map expRespOf) :=
  exact_vs_pattern_filter_semantics
    ⟨[("000000000000000000000000", ⟨"Asha", "Engineer", 95000⟩)], 1⟩ 95000
    ⟨[("000000000000000000000000", ⟨"Apollo", "d", "2024-01-01", none, "Active", []⟩)], 1⟩
    ⟨[("000000000000000000000000", ⟨"Lunch", 20, "Food", "Asha", "2024-01-01"⟩)], 1⟩
    "AAAAAAAAAAAAAAAAAAAAAAAA" "tiv" "foo"
    (by decide) (by decide) (by decide) (by decide) (by decide)

/-- C7: update has full replacement semantics on the cited chat and document
routes.  When the supplied id parses to an ObjectId present in a collection
with pairwise-distinct ids, the operation succeeds, the response carries the
same identifier and exactly the new payload values, and the resulting
collection is the old one with that single document's base fields replaced
by the payload - every other document, and the id-generation counter, are
unchanged (the result is a pointwise map that only touches entries with the
updated id). -/
theorem update_full_replacement (cs : Store ChatCreate) (cid oidc : String) (p : ChatCreate)
    (ds : Store DocumentBase) (did oidd : String) (q : DocumentBase)
    (hcp : parseOid cid = some oidc) (hcm : oidc ∈ cs.docs.map Prod.fst)
    (hcn : (cs.docs.map Prod.fst).Nodup)
    (hdp : parseOid did = some oidd) (hdm : oidd ∈ ds.docs.map Prod.fst)
    (hdn : (ds.docs.map Prod.fst).Nodup) :
    update_chat cs cid p
      = (.ok ⟨"Chat updated successfully.", some ⟨cid, p.message, p.sender, p.timestamp⟩⟩,
          ⟨cs.docs.map (fun e => if e.1 == oidc then (e.1, p) else e), cs.counter⟩)
    ∧ update_document ds did q
      = (.ok ⟨"Document updated successfully.", some ⟨q.title, q.description, q.uploaded_by, did⟩⟩,
          ⟨ds.docs.map (fun e => if e.1 == oidd then (e.1, q) else e), ds.counter⟩) := by
  constructor
  · have hu := updateFirst_eq_of_nodup cs.docs oidc p hcm hcn
    have hmk : mkChatResponse (("id", Val.s cid) :: chatDict p ++ [("_id", Val.s cid)])
        = .ok ⟨cid, p.message, p.sender, p.timestamp⟩ := rfl
    simp only [update_chat, update_chat_inner, hcp, hu, hmk]
    rfl
  · have hu := updateFirst_eq_of_nodup ds.docs oidd q hdm hdn
    have hmk : mkDocument (documentDict q ++ [("_id", Val.s did), ("id", Val.s did)])
        = .ok ⟨q.title, q.description, q.uploaded_by, did⟩ := rfl
    simp only [update_document, update_document_inner, hdp, hu, hmk]
    rfl

/-- C7 witness: the theorem at concrete two-document stores. -/
theorem update_full_replacement_witness :
    update_chat ⟨[("000000000000000000000000", ⟨"hi", "Alice", "2024"⟩),
        ("000000000000000000000001", ⟨"yo", "Bob", "2025"⟩)], 2⟩
        "000000000000000000000000" ⟨"bye", "Carol", "2026"⟩
      = (.ok ⟨"Chat updated successfully.",
            some ⟨"000000000000000000000000", "bye", "Carol", "2026"⟩⟩,
          ⟨[("000000000000000000000000", ⟨"hi", "Alice", "2024"⟩),
              ("000000000000000000000001", ⟨"yo", "Bob", "2025"⟩)].map
            (fun e => if e.1 == "000000000000000000000000"
              then (e.1, (⟨"bye", "Carol", "2026"⟩ : ChatCreate)) else e), 2⟩)
    ∧ update_document ⟨[("000000000000000000000000", ⟨"Report", "d", "u"⟩),
        ("000000000000000000000001", ⟨"Draft", "e", "v"⟩)], 2⟩
        "000000000000000000000001" ⟨"Plan", "f", "w"⟩
      = (.ok ⟨"Document updated successfully.",
            some ⟨"Plan", "f", "w", "000000000000000000000001"⟩⟩,
          ⟨[("000000000000000000000000", ⟨"Report", "d", "u"⟩),
              ("000000000000000000000001", ⟨"Draft", "e", "v"⟩)].map
            (fun e => if e.1 == "000000000000000000000001"
              then (e.1, (⟨"Plan", "f", "w"⟩ : DocumentBase)) else e), 2⟩) :=
  update_full_replacement
    ⟨[("000000000000000000000000", ⟨"hi", "Alice", "2024"⟩),
        ("000000000000000000000001", ⟨"yo", "Bob", "2025"⟩)], 2⟩
    "000000000000000000000000" "000000000000000000000000" ⟨"bye", "Carol", "2026"⟩
    ⟨[("000000000000000000000000", ⟨"Report", "d", "u"⟩),
        ("000000000000000000000001", ⟨"Draft", "e", "v"⟩)], 2⟩
    "000000000000000000000001" "000000000000000000000001" ⟨"Plan", "f", "w"⟩
    (by decide) (by decide) (by decide) (by decide) (by decide) (by decide)

/-- C8: update performs no uniqueness re-check.  Updating an existing
document (the cited resource with a title-uniqueness rule at create) so that
its title equals the title of a different stored document succeeds - the
response is a success, not a DuplicateKey error - and afterwards both
records, with distinct ids and the same title, are in the collection. -/
theorem update_skips_uniqueness_check (ds : Store DocumentBase)
    (oidA : String) (dA : DocumentBase) (bid oidB : String) (q : DocumentBase)
    (hA : (oidA, dA) ∈ ds.docs) (hp : parseOid bid = some oidB)
    (hB : oidB ∈ ds.docs.map Prod.fst) (hnd : (ds.docs.map Prod.fst).Nodup)
    (hne : oidA ≠ oidB) (htitle : q.title = dA.title) :
    (update_document ds bid q).1
      = .ok ⟨"Document updated successfully.", some ⟨q.title, q.description, q.uploaded_by, bid⟩⟩
    ∧ (oidA, dA) ∈ (update_document ds bid q).2.docs
    ∧ (oidB, q) ∈ (update_document ds bid q).2.docs
    ∧ q.title = dA.title := by
  have hu := updateFirst_eq_of_nodup ds.docs oidB q hB hnd
  have hmk : mkDocument (documentDict q ++ [("_id", Val.s bid), ("id", Val.s bid)])
      = .ok ⟨q.title, q.description, q.uploaded_by, bid⟩ := rfl
  have hdocs : (update_document ds bid q).2.docs
      = ds.docs.map (fun e => if e.1 == oidB then (e.1, q) else e) := by
    simp [update_document, update_document_inner, hp, hu, hmk]
  refine ⟨?_, ?_, ?_, htitle⟩
  · simp [update_document, update_document_inner, hp, hu, hmk, catchAll]
  · rw [hdocs]
    have hf : (fun e : String × DocumentBase => if e.1 == oidB then (e.1, q) else e) (oidA, dA)
        = (oidA, dA) := by
      simp [beq_eq_false_iff_ne.mpr hne]
    exact hf ▸ List.mem_map_of_mem _ hA
  · rw [hdocs]
    rcases List.mem_map.mp hB with ⟨e, he, heq⟩
    have hf : (fun x : String × DocumentBase => if x.1 == oidB then (x.1, q) else x) e
        = (oidB, q) := by
      simp [beq_iff_eq.mpr heq, heq]
    exact hf ▸ List.mem_map_of_mem _ he

/-- C8 witness: the theorem at a concrete store: after updating the document
titled "Draft" to the already-taken title "Report", both records carry the
title "Report". -/
theorem update_skips_uniqueness_check_witness :
    (update_document ⟨[("000000000000000000000000", ⟨"Report", "d", "u"⟩),
        ("000000000000000000000001", ⟨"Draft", "e", "v"⟩)], 2⟩
        "000000000000000000000001" ⟨"Report", "e2", "v2"⟩).1
      = .ok ⟨"Document updated successfully.",
          some ⟨"Report", "e2", "v2", "000000000000000000000001"⟩⟩
    ∧ ("000000000000000000000000", (⟨"Report", "d", "u"⟩ : DocumentBase))
        ∈ (update_document ⟨[("000000000000000000000000", ⟨"Report", "d", "u"⟩),
            ("000000000000000000000001", ⟨"Draft", "e", "v"⟩)], 2⟩
            "000000000000000000000001" ⟨"Report", "e2", "v2"⟩).2.docs
    ∧ ("000000000000000000000001", (⟨"Report", "e2", "v2"⟩ : DocumentBase))
        ∈ (update_document ⟨[("000000000000000000000000", ⟨"Report", "d", "u"⟩),
            ("000000000000000000000001", ⟨"Draft", "e", "v"⟩)], 2⟩
            "000000000000000000000001" ⟨"Report", "e2", "v2"⟩).2.docs
    ∧ (⟨"Report", "e2", "v2"⟩ : DocumentBase).title
        = (⟨"Report", "d", "u"⟩ : DocumentBase).title :=
  update_skips_uniqueness_check
    ⟨[("000000000000000000000000", ⟨"Report", "d", "u"⟩),
        ("000000000000000000000001", ⟨"Draft", "e", "v"⟩)], 2⟩
    "000000000000000000000000" ⟨"Report", "d", "u"⟩
    "000000000000000000000001" "000000000000000000000001" ⟨"Report", "e2", "v2"⟩
    (by decide) (by decide) (by decide) (by decide) (by decide) (by decide)

/-- C9 counterexample: searching employees with `salary=0` does not return
every employee as the claim says: the salary criterion is indeed dropped
(0 is falsy), but serializing the nonempty result set fails
(`Employee(**emp)` lacks the `id` key), so the route returns HTTP 500. -/
theorem salary_zero_search_counterexample :
    search_employees ⟨[("000000000000000000000000", ⟨"Asha", "Engineer", 95000⟩)], 1⟩
        none none none (some 0)
      = .error ⟨500, "1 validation error for Employee: id field required"⟩ := by
  decide

/-- C9 amended: a falsy filter value adds no criterion to the store query:
with every filter supplied as the empty string the chat search returns every
chat, and with empty-string filters and `salary=0` the employee query
selects every stored employee document (the employee route then fails with
HTTP 500 on any nonempty result because of the response-serialization
defect, so it does not literally return the employees). -/
theorem falsy_filters_add_no_criterion (cs : Store ChatCreate) (es : Store EmployeeBase) :
    search_chats cs (some "") (some "") (some "") = .ok (cs.docs.map chatRespOf)
    ∧ search_employees_docs es (some "") (some "") (some "") (some 0) = .ok es.docs := by
  have hte : truthyS (some "") = false := rfl
  have htq0 : truthyQ (some 0) = false := by decide
  constructor
  · have h1 : search_chats_docs cs (some "") (some "") (some "") = cs.docs := by
      simp [search_chats_docs, hte, chatQuery]
    rw [search_chats, h1, renderChats_ok]
    rfl
  · simp [search_employees_docs, parseIdFilter, hte, htq0, empQuery]

/-- C9 witness: the amended statement at concrete one-record stores. -/
theorem falsy_filters_add_no_criterion_witness :
    search_chats ⟨[("000000000000000000000000", ⟨"hi", "Alice", "2024"⟩)], 1⟩
        (some "") (some "") (some "")
      = .ok ((⟨[("000000000000000000000000", ⟨"hi", "Alice", "2024"⟩)], 1⟩ :
          Store ChatCreate).docs.map chatRespOf)
    ∧ search_employees_docs ⟨[("000000000000000000000000", ⟨"Asha", "Engineer", 95000⟩)], 1⟩
        (some "") (some "") (some "") (some 0)
      = .ok (⟨[("000000000000000000000000", ⟨"Asha", "Engineer", 95000⟩)], 1⟩ :
          Store EmployeeBase).docs :=
  falsy_filters_add_no_criterion
    ⟨[("000000000000000000000000", ⟨"hi", "Alice", "2024"⟩)], 1⟩
    ⟨[("000000000000000000000000", ⟨"Asha", "Engineer", 95000⟩)], 1⟩

end OfficeAPI
